import Mathlib

/-!
Verification of the openvpn status-file parser (status.go).

The source file contains two complete formulations of the same package:
the first drives parsing through parseUnknown and a local readState
variable, the second through parseLine, which stores the state in the
Status record and returns a parse function.  Both are embedded below
(Parse1 and Parse2).

Modelling conventions:
* input streams are lists of text lines (the bufio scanner splits on
  newlines; underlying read errors are out of scope of the claims);
* Go strings are Lean String, processed through their character lists
  (the parsers in scope only inspect ASCII bytes, for which bytewise
  and characterwise processing agree);
* net.IP values are byte lists (List Nat); a parsed IPv4 address is the
  16-byte 4-in-6 form, as produced by the Go net package of the era;
* time.Time values are Unix seconds (Int); the zero Go time.Time is
  January 1 of year 1 UTC;
* machine integers are Nat/Int with the explicit range checks the Go
  strconv package performs;
* fallible Go functions return Except; a Go runtime panic (reachable in
  parseStats) is a distinct PResult.panic outcome that propagates
  through the drivers without being wrapped.
-/

namespace OpenVPN

/-- Result of running a Go function that may return an error or panic. -/
inductive PResult (α : Type) where
  | ok (a : α)
  | fail (e : String)
  | panic (m : String)
deriving DecidableEq, Repr

def liftE {α : Type} : Except String α → PResult α
  | .ok a => .ok a
  | .error e => .fail e

def exOpt {ε α : Type} : Except ε α → Option α
  | .ok a => some a
  | .error _ => none

def isOkE {ε α : Type} : Except ε α → Bool
  | .ok _ => true
  | .error _ => false

def okD {ε α : Type} (x : Except ε α) (d : α) : α :=
  match x with
  | .ok a => a
  | .error _ => d

/-! ## Go string primitives (strings package), on character lists -/

/-- strings.Split(text, sep) for a single-character separator. -/
def splitCharAux (sep : Char) : List Char → List Char → List String
  | [], acc => [String.mk acc.reverse]
  | c :: cs, acc =>
    if c = sep then String.mk acc.reverse :: splitCharAux sep cs []
    else splitCharAux sep cs (c :: acc)

/-- strings.Split(text, ",") as used by the record parsers. -/
def goSplitComma (s : String) : List String :=
  splitCharAux ',' s.data []

/-- Does the character-list needle occur in the haystack (strings.Contains)? -/
def containsAux (needle : List Char) : List Char → Bool
  | [] => needle.isPrefixOf []
  | c :: cs => needle.isPrefixOf (c :: cs) || containsAux needle cs

/-- strings.Contains(s, sub). -/
def goContains (s sub : String) : Bool :=
  containsAux sub.data s.data

/-- strings.HasPrefix(s, pre). -/
def goStartsWith (s pre : String) : Bool :=
  pre.data.isPrefixOf s.data

/-- strings.HasSuffix(text, "C") as used by parseRouteAddr. -/
def goEndsWithC (s : String) : Bool :=
  s.data.getLast? = some 'C'

/-- strings.TrimSuffix(text, "C") (drops one trailing character). -/
def goTrimC (s : String) : String :=
  String.mk s.data.dropLast

/-- Go slice text[n:] on an ASCII string. -/
def goStrDrop (s : String) (n : Nat) : String :=
  String.mk (s.data.drop n)

/-- Go slice text[0:n] on an ASCII string. -/
def goStrTake (s : String) (n : Nat) : String :=
  String.mk (s.data.take n)

/-- First index of a character (Go byteIndex). -/
def idxOfAux (c : Char) : List Char → Nat → Option Nat
  | [], _ => none
  | d :: ds, i => if d = c then some i else idxOfAux c ds (i + 1)

def idxOf (c : Char) (cs : List Char) : Option Nat :=
  idxOfAux c cs 0

/-- Last index of a character (Go last). -/
def lastIdxOf (c : Char) (cs : List Char) : Option Nat :=
  match idxOf c cs.reverse with
  | some i => some (cs.length - 1 - i)
  | none => none

/-! ## strconv -/

def digitVal (c : Char) : Nat := c.toNat - 48

/-- Scanning loop of strconv.ParseUint base 10, bit size 64: digit by
digit with an immediate out-of-range stop.  Returns the value or the
bare error kind text. -/
def parseUintLoop : List Char → Nat → Except String Nat
  | [], n => .ok n
  | c :: cs, n =>
    if c.isDigit then
      let n2 := n * 10 + digitVal c
      if 2 ^ 64 ≤ n2 then .error "value out of range"
      else parseUintLoop cs n2
    else .error "invalid syntax"

/-- Quoting of the offending literal in strconv error texts (escaping of
special characters is elided; inputs in scope are plain ASCII). -/
def goQuote (s : String) : String :=
  "\"" ++ s ++ "\""

def numErr (fn s kind : String) : String :=
  "strconv." ++ fn ++ ": parsing " ++ goQuote s ++ ": " ++ kind

/-- strconv.ParseUint(s, 10, 64). -/
def goParseUint64 (s : String) : Except String Nat :=
  if s.data.isEmpty then .error (numErr "ParseUint" s "invalid syntax")
  else
    match parseUintLoop s.data 0 with
    | .ok n => .ok n
    | .error kind => .error (numErr "ParseUint" s kind)

/-- strconv.ParseInt(s, 10, 64), which also backs strconv.Atoi on a
64-bit platform: optional sign, then the unsigned scan, then the signed
range check. -/
def goParseInt64 (s : String) : Except String Int :=
  if s.data.isEmpty then .error (numErr "ParseInt" s "invalid syntax")
  else
    let (neg, rest) :=
      match s.data with
      | '+' :: cs => (false, cs)
      | '-' :: cs => (true, cs)
      | cs => (false, cs)
    if rest.isEmpty then .error (numErr "ParseInt" s "invalid syntax")
    else
      match parseUintLoop rest 0 with
      | .error kind => .error (numErr "ParseInt" s kind)
      | .ok un =>
        if ¬neg ∧ 2 ^ 63 ≤ un then .error (numErr "ParseInt" s "value out of range")
        else if neg ∧ 2 ^ 63 < un then .error (numErr "ParseInt" s "value out of range")
        else .ok (if neg then -(un : Int) else (un : Int))

/-- strconv.Atoi(s). -/
def goAtoi (s : String) : Except String Int :=
  goParseInt64 s

/-! ## time.Parse with the fixed layout Mon Jan 2 15:04:05 2006 -/

def timeSyntaxErr : String := "cannot parse value as layout"
def timeRangeErr (what : String) : String := what ++ " out of range"
def timeExtraErr : String := "extra text"

def o2e {α : Type} (o : Option α) : Except String α :=
  match o with
  | some a => .ok a
  | none => .error timeSyntaxErr

/-- Case-insensitive ASCII byte match used by the time package lookup. -/
def ciEqChar (a b : Char) : Bool :=
  a = b || (let x := a.toNat ||| 32
            let y := b.toNat ||| 32
            x = y && 97 ≤ x && x ≤ 122)

def ciMatch : List Char → List Char → Bool
  | [], [] => true
  | a :: as_, b :: bs => ciEqChar a b && ciMatch as_ bs
  | _, _ => false

/-- time lookup: first table entry that case-insensitively heads the
value; yields the index and the rest of the value. -/
def lookupTab : List String → Nat → List Char → Option (Nat × List Char)
  | [], _, _ => none
  | name :: tab, idx, v =>
    if name.data.length ≤ v.length && ciMatch (v.take name.data.length) name.data then
      some (idx, v.drop name.data.length)
    else lookupTab tab (idx + 1) v

def shortDayNames : List String :=
  ["Sun", "Mon", "Tue", "Wed", "Thu", "Fri", "Sat"]

def shortMonthNames : List String :=
  ["Jan", "Feb", "Mar", "Apr", "May", "Jun", "Jul", "Aug", "Sep", "Oct", "Nov", "Dec"]

/-- A literal blank in the layout: matches a (run of) blank(s), or the
end of the value. -/
def skipSpace : List Char → Option (List Char)
  | [] => some []
  | c :: cs => if c = ' ' then some ((c :: cs).dropWhile (fun d => d = ' ')) else none

/-- A literal colon in the layout. -/
def expectColon : List Char → Option (List Char)
  | ':' :: cs => some cs
  | _ => none

/-- time getnum: one or two digits (exactly two when fixed). -/
def getnum (fixed : Bool) : List Char → Option (Nat × List Char)
  | [] => none
  | c1 :: rest =>
    if c1.isDigit then
      match rest with
      | c2 :: rest2 =>
        if c2.isDigit then some (digitVal c1 * 10 + digitVal c2, rest2)
        else if fixed then none else some (digitVal c1, rest)
      | [] => if fixed then none else some (digitVal c1, [])
    else none

/-- Four digit year of the layout token 2006. -/
def parseYear : List Char → Option (Nat × List Char)
  | c1 :: c2 :: c3 :: c4 :: rest =>
    if c1.isDigit && c2.isDigit && c3.isDigit && c4.isDigit then
      some (((digitVal c1 * 10 + digitVal c2) * 10 + digitVal c3) * 10 + digitVal c4, rest)
    else none
  | _ => none

/-- Days between 1970-01-01 and year/month/day (proleptic Gregorian,
affine in the day so that out-of-range days normalize the way the Go
Date constructor does). -/
def daysFromCivil (y m d : Int) : Int :=
  let y2 := if m ≤ 2 then y - 1 else y
  let era := Int.fdiv y2 400
  let yoe := y2 - era * 400
  let mp := if 2 < m then m - 3 else m + 9
  let doy := Int.fdiv (153 * mp + 2) 5 + d - 1
  let doe := yoe * 365 + Int.fdiv yoe 4 - Int.fdiv yoe 100 + doy
  era * 146097 + doe - 719468

def unixOf (year month day hour minute second : Nat) : Int :=
  86400 * daysFromCivil (year : Int) (month : Int) (day : Int)
    + 3600 * (hour : Int) + 60 * (minute : Int) + (second : Int)

def chk (b : Bool) (e : String) : Except String Unit :=
  if b then .ok () else .error e

/-- time.Parse with layout Mon Jan 2 15:04:05 2006 on a character
list.  The weekday is parsed but otherwise ignored, as in the Go time
package; range checks on hour, minute and second are immediate. -/
def parseTimeCs (v0 : List Char) : Except String Int := do
  let (_, v1) ← o2e (lookupTab shortDayNames 0 v0)
  let v2 ← o2e (skipSpace v1)
  let (mIdx, v3) ← o2e (lookupTab shortMonthNames 0 v2)
  let v4 ← o2e (skipSpace v3)
  let (day, v5) ← o2e (getnum false v4)
  let v6 ← o2e (skipSpace v5)
  let (hour, v7) ← o2e (getnum false v6)
  let _ ← chk (decide (hour < 24)) (timeRangeErr "hour")
  let v8 ← o2e (expectColon v7)
  let (minute, v9) ← o2e (getnum true v8)
  let _ ← chk (decide (minute < 60)) (timeRangeErr "minute")
  let v10 ← o2e (expectColon v9)
  let (second, v11) ← o2e (getnum true v10)
  let _ ← chk (decide (second < 60)) (timeRangeErr "second")
  let v12 ← o2e (skipSpace v11)
  let (year, v13) ← o2e (parseYear v12)
  let _ ← chk v13.isEmpty timeExtraErr
  .ok (unixOf year (mIdx + 1) day hour minute second)

/-- parseTime of status.go: time.Parse("Mon Jan 2 15:04:05 2006", text). -/
def parseTimeS (text : String) : Except String Int :=
  parseTimeCs text.data

/-- Unix seconds of the zero Go time.Time (January 1, year 1, UTC). -/
def goZeroTime : Int := unixOf 1 1 1 0 0 0

/-! ## net package: IP parsing (2015-era implementation) -/

/-- net dtoi at base 10: a nonempty digit run with the 0xFFFFFF
overflow stop; yields the value and the unconsumed rest. -/
def dtoiAux : List Char → Nat → Option (Nat × List Char)
  | [], n => some (n, [])
  | c :: cs, n =>
    if c.isDigit then
      let n2 := n * 10 + digitVal c
      if 0xFFFFFF ≤ n2 then none else dtoiAux cs n2
    else some (n, c :: cs)

def dtoi (s : List Char) : Option (Nat × List Char) :=
  match s with
  | [] => none
  | c :: _ => if c.isDigit then dtoiAux s 0 else none

def hexVal (c : Char) : Option Nat :=
  if c.isDigit then some (digitVal c)
  else if 'a' ≤ c ∧ c ≤ 'f' then some (c.toNat - 87)
  else if 'A' ≤ c ∧ c ≤ 'F' then some (c.toNat - 55)
  else none

/-- net xtoi at base 16, with the same overflow stop. -/
def xtoiAux : List Char → Nat → Option (Nat × List Char)
  | [], n => some (n, [])
  | c :: cs, n =>
    match hexVal c with
    | some d =>
      let n2 := n * 16 + d
      if 0xFFFFFF ≤ n2 then none else xtoiAux cs n2
    | none => some (n, c :: cs)

def xtoi (s : List Char) : Option (Nat × List Char) :=
  match s with
  | [] => none
  | c :: _ => if (hexVal c).isSome then xtoiAux s 0 else none

/-- The 4-in-6 16-byte form the Go net.IPv4 constructor produces. -/
def ipv4Mapped (a b c d : Nat) : List Nat :=
  [0, 0, 0, 0, 0, 0, 0, 0, 0, 0, 0xff, 0xff, a, b, c, d]

/-- net parseIPv4 octet loop: j counts parsed octets, each preceded by
a dot after the first, each a digit run of value at most 255, and the
whole text must be consumed. -/
def p4Loop (s : List Char) (j : Nat) (acc : List Nat) : Option (List Nat) :=
  match j with
  | 0 => if s.isEmpty then some acc else none
  | j' + 1 =>
    let sepped : Option (List Char) :=
      if j' + 1 = 4 then some s
      else match s with
        | '.' :: s2 => some s2
        | _ => none
    match sepped with
    | none => none
    | some s1 =>
      match dtoi s1 with
      | none => none
      | some (n, s2) => if 255 < n then none else p4Loop s2 j' (acc ++ [n])

def goParseIPv4 (s : List Char) : Option (List Nat) :=
  match p4Loop s 4 [] with
  | some [a, b, c, d] => some (ipv4Mapped a b c d)
  | _ => none

/-- Post-loop processing of net parseIPv6: the text must be consumed;
a short parse needs an ellipsis, which expands to the missing zero
bytes; a full parse must not have one. -/
def p6Finish (s : List Char) (i : Nat) (acc : List Nat) (ell : Option Nat) : Option (List Nat) :=
  if ¬s.isEmpty then none
  else if i < 16 then
    match ell with
    | none => none
    | some e => some (acc.take e ++ List.replicate (16 - i) 0 ++ acc.drop e)
  else
    match ell with
    | some _ => none
    | none => some acc

/-- Chunk loop of net parseIPv6: hex groups of at most 0xFFFF separated
by colons, an optional one-time double colon, and an optional trailing
dotted quad in the last four bytes. -/
def p6Loop (fuel : Nat) (s : List Char) (i : Nat) (acc : List Nat) (ell : Option Nat) :
    Option (List Nat) :=
  match fuel with
  | 0 => none
  | fuel' + 1 =>
    if 16 ≤ i then p6Finish s i acc ell
    else
      match xtoi s with
      | none => none
      | some (n, rest) =>
        if 0xFFFF < n then none
        else
          match rest with
          | '.' :: _ =>
            if ell = none ∧ i ≠ 12 then none
            else if 16 < i + 4 then none
            else
              match goParseIPv4 s with
              | none => none
              | some ip4 => p6Finish [] (i + 4) (acc ++ ip4.drop 12) ell
          | _ =>
            let acc2 := acc ++ [n / 256, n % 256]
            let i2 := i + 2
            match rest with
            | [] => p6Finish [] i2 acc2 ell
            | c :: rest1 =>
              if c ≠ ':' ∨ rest1.isEmpty then none
              else
                match rest1 with
                | ':' :: rest2 =>
                  if ell.isSome then none
                  else if rest2.isEmpty then p6Finish [] i2 acc2 (some i2)
                  else p6Loop fuel' rest2 i2 acc2 (some i2)
                | _ => p6Loop fuel' rest1 i2 acc2 ell

def goParseIPv6 (s : List Char) : Option (List Nat) :=
  match s with
  | ':' :: ':' :: s2 =>
    if s2.isEmpty then some (List.replicate 16 0)
    else p6Loop (s2.length + 1) s2 0 [] (some 0)
  | _ => p6Loop (s.length + 1) s 0 [] none

/-- net.ParseIP: dispatch on the first dot or colon. -/
def ipKindScan : List Char → Option Bool
  | [] => none
  | c :: cs =>
    if c = '.' then some true
    else if c = ':' then some false
    else ipKindScan cs

def goParseIP (text : String) : Option (List Nat) :=
  match ipKindScan text.data with
  | some true => goParseIPv4 text.data
  | some false => goParseIPv6 text.data
  | none => none

/-- net.CIDRMask(ones, bits). -/
def cmLoop (n : Nat) (l : Nat) : List Nat :=
  match l with
  | 0 => []
  | l' + 1 => if 8 ≤ n then 255 :: cmLoop (n - 8) l' else (255 - (255 >>> n)) :: cmLoop 0 l'

def cidrMask (ones bits : Nat) : List Nat :=
  if (bits = 32 ∨ bits = 128) ∧ ones ≤ bits then cmLoop ones (bits / 8) else []

/-- net.IP.To4. -/
def goTo4 (ip : List Nat) : Option (List Nat) :=
  if ip.length = 4 then some ip
  else if ip.length = 16 ∧ ip.take 10 = List.replicate 10 0 ∧ (ip.drop 10).take 2 = [255, 255] then
    some (ip.drop 12)
  else none

def cidrErr (s : String) : String :=
  "invalid CIDR address: " ++ s

/-- net.ParseCIDR, reduced to the pair the caller uses: the full
(16-byte for v4) address before the slash, and the mask built from the
prefix length, which must consume the rest of the text and fit the
family of the address. -/
def goParseCIDR (s : String) : Except String (List Nat × List Nat) :=
  let cs := s.data
  match idxOf '/' cs with
  | none => .error (cidrErr s)
  | some i =>
    let addr := cs.take i
    let maskS := cs.drop (i + 1)
    let ipBits : Option (List Nat) × Nat :=
      match goParseIPv4 addr with
      | some ip => (some ip, 32)
      | none => (goParseIPv6 addr, 128)
    match ipBits.1 with
    | none => .error (cidrErr s)
    | some ip =>
      match dtoi maskS with
      | none => .error (cidrErr s)
      | some (n, rest) =>
        if rest.isEmpty ∧ n ≤ ipBits.2 then .ok (ip, cidrMask n ipBits.2)
        else .error (cidrErr s)

/-! ## net.SplitHostPort and the address parsers of status.go -/

def goAddrErr (hostport msg : String) : String :=
  if hostport = "" then msg else "address " ++ hostport ++ ": " ++ msg

/-- net.SplitHostPort: the port starts after the last colon; a
bracketed host must close just before it; a bare host may not itself
contain a colon. -/
def goSplitHostPort (hostport : String) : Except String (String × String) :=
  let cs := hostport.data
  match lastIdxOf ':' cs with
  | none => .error (goAddrErr hostport "missing port in address")
  | some i =>
    let port := String.mk (cs.drop (i + 1))
    if cs.headD ' ' = '[' then
      match idxOf ']' cs with
      | none => .error (goAddrErr hostport "missing bracket in address")
      | some e =>
        if e + 1 = cs.length then .error (goAddrErr hostport "missing port in address")
        else if e + 1 = i then
          let host := String.mk ((cs.drop 1).take (e - 1))
          if (idxOf '[' (cs.drop 1)).isSome then
            .error (goAddrErr hostport "unexpected bracket in address")
          else if (idxOf ']' (cs.drop (e + 1))).isSome then
            .error (goAddrErr hostport "unexpected bracket in address")
          else .ok (host, port)
        else if (cs.drop (e + 1)).headD ' ' = ':' then
          .error (goAddrErr hostport "too many colons in address")
        else .error (goAddrErr hostport "missing port in address")
    else
      let host := String.mk (cs.take i)
      if (idxOf ':' (cs.take i)).isSome then
        .error (goAddrErr hostport "too many colons in address")
      else if (idxOf '[' cs).isSome then
        .error (goAddrErr hostport "unexpected bracket in address")
      else if (idxOf ']' cs).isSome then
        .error (goAddrErr hostport "unexpected bracket in address")
      else .ok (host, port)

/-- An INET address: IP bytes and port (Go Addr). -/
structure Addr where
  ip : List Nat
  port : Int
deriving DecidableEq, Repr

def addrZero : Addr := { ip := [], port := 0 }

/-- parseAddr of status.go. -/
def parseAddr (text : String) : Except String Addr :=
  match goSplitHostPort text with
  | .error e => .error e
  | .ok (h, p) =>
    match goParseIP h with
    | none => .error "Invalid IP encountered"
    | some ip =>
      match goAtoi p with
      | .error e => .error e
      | .ok prt => .ok { ip := ip, port := prt }

/-- A route address: network IP and mask plus the remote flag (Go
RouteAddr embedding net.IPNet). -/
structure RouteAddr where
  ip : List Nat
  mask : List Nat
  remote : Bool
deriving DecidableEq, Repr

def routeAddrZero : RouteAddr := { ip := [], mask := [], remote := false }

/-- parseRouteAddr of status.go: strip a trailing C (remote marker),
try CIDR, fall back to a bare IP with a family-sized full mask, else
report the CIDR error. -/
def parseRouteAddr (text : String) : Except String RouteAddr :=
  let stripped := if goEndsWithC text then (goTrimC text, true) else (text, false)
  match goParseCIDR stripped.1 with
  | .ok (ip, mask) => .ok { ip := ip, mask := mask, remote := stripped.2 }
  | .error err =>
    match goParseIP stripped.1 with
    | none => .error err
    | some ip =>
      let mask := if goTo4 ip = none then cidrMask 128 (8 * 16) else cidrMask 32 (8 * 4)
      .ok { ip := ip, mask := mask, remote := stripped.2 }

/-! ## Records and the generic record filler (parseStructParts) -/

/-- A connected client (Go Client). -/
structure Client where
  commonName : String
  realAddress : Addr
  bytesReceived : Nat
  bytesSent : Nat
  since : Int
deriving DecidableEq, Repr

/-- A routing-table entry (Go Route). -/
structure Route where
  virtualAddress : RouteAddr
  commonName : String
  realAddress : Addr
  lastRef : Int
deriving DecidableEq, Repr

/-- The parse result (Go Status).  The second formulation additionally
stores the read state in the record; it is threaded explicitly through
the second driver here, since no other field depends on it. -/
structure Status where
  updated : Int
  clients : List Client
  routes : List Route
  maxQueue : Nat
deriving DecidableEq, Repr

def statusZero : Status :=
  { updated := goZeroTime, clients := [], routes := [], maxQueue := 0 }

/-- The semantic field kinds the reflection switch of parseStructParts
dispatches on (uint64, int64, string, and the recognized struct types
time.Time, Addr, net.IP, RouteAddr). -/
inductive FTy where
  | u64
  | i64
  | str
  | time
  | addr
  | ip
  | routeAddr
deriving DecidableEq, Repr

/-- A parsed field value, one constructor per field kind. -/
inductive FVal where
  | u64 (n : Nat)
  | i64 (n : Int)
  | str (s : String)
  | time (t : Int)
  | addr (a : Addr)
  | ip (b : List Nat)
  | routeAddr (r : RouteAddr)
deriving DecidableEq, Repr

/-- The Go zero value of each field kind. -/
def zeroVal : FTy → FVal
  | .u64 => .u64 0
  | .i64 => .i64 0
  | .str => .str ""
  | .time => .time goZeroTime
  | .addr => .addr addrZero
  | .ip => .ip []
  | .routeAddr => .routeAddr routeAddrZero

/-- The typed parse of one field (the case dispatch in the
parseStructParts loop body). -/
def parseField : FTy → String → Except String FVal
  | .u64, p => (goParseUint64 p).map .u64
  | .i64, p => (goParseInt64 p).map .i64
  | .str, p => .ok (.str p)
  | .time, p => (parseTimeS p).map .time
  | .addr, p => (parseAddr p).map .addr
  | .ip, p =>
    match goParseIP p with
    | some b => .ok (.ip b)
    | none => .error "Invalid IP encountered"
  | .routeAddr, p => (parseRouteAddr p).map .routeAddr

/-- The parseStructParts loop: for each index below both lengths, parse
the text field at i into the record field at i (every field of the
records in scope is settable), failing fast on the first error.  The
field kinds still to be visited drive the recursion; the loop stops
when they, or the text fields, run out. -/
def psLoop (tsRem : List FTy) (ps : List String) (i : Nat) (rec : List FVal) :
    Except String (List FVal) :=
  match tsRem with
  | [] => .ok rec
  | ty :: tsRem2 =>
    match ps[i]? with
    | none => .ok rec
    | some p =>
      match parseField ty p with
      | .error e => .error e
      | .ok v => psLoop tsRem2 ps (i + 1) (rec.set i v)

/-- parseStructParts of status.go on a zero-initialized record
described by its ordered field kinds. -/
def parseStructParts (ts : List FTy) (ps : List String) : Except String (List FVal) :=
  psLoop ts ps 0 (ts.map zeroVal)

/-- Field kinds of Client, in declaration order. -/
def clientSchema : List FTy := [.str, .addr, .u64, .u64, .time]

/-- Field kinds of Route, in declaration order. -/
def routeSchema : List FTy := [.routeAddr, .str, .addr, .time]

def FVal.getStr : FVal → String
  | .str s => s
  | _ => ""

def FVal.getU64 : FVal → Nat
  | .u64 n => n
  | _ => 0

def FVal.getTime : FVal → Int
  | .time t => t
  | _ => goZeroTime

def FVal.getAddr : FVal → Addr
  | .addr a => a
  | _ => addrZero

def FVal.getRouteAddr : FVal → RouteAddr
  | .routeAddr r => r
  | _ => routeAddrZero

def clientOfVals (vs : List FVal) : Client :=
  { commonName := (vs.getD 0 (.str "")).getStr
    realAddress := (vs.getD 1 (.addr addrZero)).getAddr
    bytesReceived := (vs.getD 2 (.u64 0)).getU64
    bytesSent := (vs.getD 3 (.u64 0)).getU64
    since := (vs.getD 4 (.time goZeroTime)).getTime }

def routeOfVals (vs : List FVal) : Route :=
  { virtualAddress := (vs.getD 0 (.routeAddr routeAddrZero)).getRouteAddr
    commonName := (vs.getD 1 (.str "")).getStr
    realAddress := (vs.getD 2 (.addr addrZero)).getAddr
    lastRef := (vs.getD 3 (.time goZeroTime)).getTime }

/-- parseStructParts applied to a zero Client. -/
def parseClientParts (ps : List String) : Except String Client :=
  (parseStructParts clientSchema ps).map clientOfVals

/-- parseStructParts applied to a zero Route. -/
def parseRouteParts (ps : List String) : Except String Route :=
  (parseStructParts routeSchema ps).map routeOfVals

/-! ## Section parsers -/

/-- parseClient: split on commas, fill a zero Client; on failure a line
whose first field is the Common Name column label is silently skipped,
any other failure is reported; on success the client is appended.  The
two formulations in the source have textually identical bodies. -/
def parseClient (s : Status) (text : String) : Except String Status :=
  let parts := goSplitComma text
  match parseClientParts parts with
  | .ok c => .ok { s with clients := s.clients ++ [c] }
  | .error e => if parts.headD "" = "Common Name" then .ok s else .error e

/-- parseRoutes (first formulation) and parseRoute (second),
textually identical bodies: as parseClient with the Virtual Address
column label. -/
def parseRoutes (s : Status) (text : String) : Except String Status :=
  let parts := goSplitComma text
  match parseRouteParts parts with
  | .ok r => .ok { s with routes := s.routes ++ [r] }
  | .error e => if parts.headD "" = "Virtual Address" then .ok s else .error e

def parseRoute (s : Status) (text : String) : Except String Status :=
  parseRoutes s text

/-- parseStats (first formulation) and parseStat (second), textually
identical bodies: on a first field containing the text queue length,
the unguarded access to the second field panics when the line has no
comma; otherwise the parsed value lands in MaxQueue. -/
def parseStats (s : Status) (text : String) : PResult Status :=
  let parts := goSplitComma text
  if goContains (parts.headD "") "queue length" then
    match parts.get? 1 with
    | none => .panic "runtime error: index out of range"
    | some p1 =>
      match goParseUint64 p1 with
      | .error e => .fail e
      | .ok v => .ok { s with maxQueue := v }
  else .ok s

def parseStat (s : Status) (text : String) : PResult Status :=
  parseStats s text

/-! ## First formulation: parseUnknown and its driver -/

abbrev stateUnknown : Nat := 0
abbrev stateClients : Nat := 1
abbrev stateRoutes : Nat := 2
abbrev stateStats : Nat := 3
abbrev stateEnd : Nat := 4

/-- parseUnknown (first formulation): classify a line, returning the
mutated status (an Updated line assigns the parse result even on
error, since the Go multiple assignment stores the zero time then),
the detected state (stateUnknown when none), and the error if any. -/
def parseUnknown (s : Status) (text : String) : Status × Nat × Option String :=
  if text = "END" then (s, stateEnd, none)
  else if text = "" then (s, stateUnknown, none)
  else if goContains text "CLIENT LIST" then (s, stateClients, none)
  else if goContains text "ROUTING TABLE" then (s, stateRoutes, none)
  else if goContains text "GLOBAL STATS" then (s, stateStats, none)
  else if goStartsWith text "Updated," then
    match parseTimeS (goStrDrop text 8) with
    | .ok t => ({ s with updated := t }, stateUnknown, none)
    | .error e => ({ s with updated := goZeroTime }, stateUnknown, some e)
  else (s, stateUnknown, some "Unexpected header text")

/-- One loop iteration of the first Parse: try parseUnknown; if it
succeeds, keep the state (updated only when a section was detected);
if it fails, dispatch on the current state — the switch has no case
for stateUnknown, where the line is simply skipped. -/
def p1Step (s : Status) (cs : Nat) (t : String) : PResult (Status × Nat) :=
  match parseUnknown s t with
  | (s1, cs2, none) => .ok (s1, if stateUnknown < cs2 then cs2 else cs)
  | (s1, _, some _) =>
    if cs = stateClients then
      match parseClient s1 t with
      | .ok s2 => .ok (s2, cs)
      | .error e => .fail e
    else if cs = stateRoutes then
      match parseRoutes s1 t with
      | .ok s2 => .ok (s2, cs)
      | .error e => .fail e
    else if cs = stateStats then
      match parseStats s1 t with
      | .ok s2 => .ok (s2, cs)
      | .fail e => .fail e
      | .panic m => .panic m
    else .ok (s1, cs)

def wrapLineErr (n : Nat) (e : String) : String :=
  "Error on line " ++ toString n ++ ": " ++ e

/-- The scanning loop of the first Parse: runs while the state is
before stateEnd and lines remain; a failing line aborts with the
1-based line number wrapped around the error. -/
def parse1Go (s : Status) (cs : Nat) (n : Nat) : List String → PResult Status
  | [] => .ok s
  | t :: rest =>
    if stateEnd ≤ cs then .ok s
    else
      match p1Step s cs t with
      | .ok (s2, cs2) => parse1Go s2 cs2 (n + 1) rest
      | .fail e => .fail (wrapLineErr (n + 1) e)
      | .panic m => .panic m

/-- Parse (first formulation). -/
def Parse1 (lines : List String) : PResult Status :=
  parse1Go statusZero stateUnknown 0 lines

/-! ## Second formulation: parseLine and its driver -/

/-- The parse functions parseLine can return. -/
inductive PFn where
  | nothing
  | updated
  | client
  | route
  | stat
deriving DecidableEq, Repr

/-- The error outcomes of parseLine: the distinguished EOF value, or a
real error. -/
inductive P2Err where
  | eof
  | err (e : String)
deriving DecidableEq, Repr

/-- parseUpdated (second formulation): checks the first seven bytes
spell Updated (panicking on a shorter text, as the Go slice would) and
parses the text after the comma, assigning only on success. -/
def parseUpdated (s : Status) (text : String) : PResult Status :=
  if text.data.length < 7 then .panic "runtime error: slice bounds out of range"
  else if goStrTake text 7 = "Updated" then
    if text.data.length < 8 then .panic "runtime error: slice bounds out of range"
    else
      match parseTimeS (goStrDrop text 8) with
      | .ok t => .ok { s with updated := t }
      | .error e => .fail e
  else .ok s

/-- parseLine (second formulation): classify the line, store the new
state, and return the parse function for it; END and the empty line
yield the EOF signal; unclassified text in stateUnknown is an error. -/
def parseLine (st : Nat) (text : String) : Nat × PFn × Option P2Err :=
  if text = "END" ∨ text = "" then (stateEnd, .nothing, some .eof)
  else if goContains text "CLIENT LIST" then (stateClients, .nothing, none)
  else if goContains text "ROUTING TABLE" then (stateRoutes, .nothing, none)
  else if goContains text "GLOBAL STATS" then (stateStats, .nothing, none)
  else if goStartsWith text "Updated," then (st, .updated, none)
  else if st = stateClients then (st, .client, none)
  else if st = stateRoutes then (st, .route, none)
  else if st = stateStats then (st, .stat, none)
  else if st = stateEnd then (st, .nothing, none)
  else (st, .nothing, some (.err "Unexpected text encountered"))

def applyFn : PFn → Status → String → PResult Status
  | .nothing, s, _ => .ok s
  | .updated, s, t => parseUpdated s t
  | .client, s, t => liftE (parseClient s t)
  | .route, s, t => liftE (parseRoute s t)
  | .stat, s, t => parseStat s t

/-- Outcome of one loop iteration of the second Parse. -/
inductive Step2 where
  | cont (s : Status) (st : Nat)
  | stop
  | fail (e : String)
  | panic (m : String)
deriving DecidableEq, Repr

/-- One loop iteration of the second Parse: parseLine, then (only when
it did not signal) the returned parse function; EOF stops parsing. -/
def p2Step (s : Status) (st : Nat) (t : String) : Step2 :=
  match parseLine st t with
  | (_, _, some .eof) => .stop
  | (_, _, some (.err e)) => .fail e
  | (st2, fn, none) =>
    match applyFn fn s t with
    | .ok s2 => .cont s2 st2
    | .fail e => .fail e
    | .panic m => .panic m

/-- The scanning loop of the second Parse. -/
def parse2Go (s : Status) (st : Nat) (n : Nat) : List String → PResult Status
  | [] => .ok s
  | t :: rest =>
    match p2Step s st t with
    | .cont s2 st2 => parse2Go s2 st2 (n + 1) rest
    | .stop => .ok s
    | .fail e => .fail (wrapLineErr (n + 1) e)
    | .panic m => .panic m

/-- Parse (second formulation). -/
def Parse2 (lines : List String) : PResult Status :=
  parse2Go statusZero stateUnknown 0 lines

/-! ## The section-8 example file -/

/-- The example status file of the specification (twelve physical
lines, eleven of them before the END marker). -/
def exampleLines : List String :=
  [ "OpenVPN CLIENT LIST"
  , "Updated,Thu Nov  5 15:34:43 2015"
  , "Common Name,Real Address,Bytes Received,Bytes Sent,Connected Since"
  , "test1,6.6.6.6:1000,100,98,Thu Nov  5 15:34:43 2015"
  , "ROUTING TABLE"
  , "Virtual Address,Common Name,Real Address,Last Ref"
  , "10.0.0.1,test1,6.6.6.6:1000,Thu Nov  5 15:34:43 2015"
  , "10.1.0.1C,test1,6.6.6.6:1000,Thu Nov  5 15:34:43 2015"
  , "10.3.0.1/16,test1,6.6.6.6:1000,Thu Nov  5 15:34:43 2015"
  , "GLOBAL STATS"
  , "Max bcast / mcast queue length,39"
  , "END" ]

def exampleAddr : Addr := { ip := ipv4Mapped 6 6 6 6, port := 1000 }

/-- The snapshot both drivers produce from the example file. -/
def exampleStatus : Status :=
  { updated := 1446737683
    clients := [{ commonName := "test1", realAddress := exampleAddr,
                  bytesReceived := 100, bytesSent := 98, since := 1446737683 }]
    routes :=
      [ { virtualAddress := { ip := ipv4Mapped 10 0 0 1, mask := cidrMask 32 32, remote := false }
          commonName := "test1", realAddress := exampleAddr, lastRef := 1446737683 }
      , { virtualAddress := { ip := ipv4Mapped 10 1 0 1, mask := cidrMask 32 32, remote := true }
          commonName := "test1", realAddress := exampleAddr, lastRef := 1446737683 }
      , { virtualAddress := { ip := ipv4Mapped 10 3 0 1, mask := cidrMask 16 32, remote := false }
          commonName := "test1", realAddress := exampleAddr, lastRef := 1446737683 } ]
    maxQueue := 39 }

/-- C2: both Parse formulations applied to the section-8 example file
succeed with updated = Unix 1446737683; exactly one Client named
test1 at 6.6.6.6 port 1000 (16-byte 4-in-6 form) with 100 bytes
received, 98 sent, connected since the same instant; exactly the three
Routes 10.0.0.1/32 (remote false), 10.1.0.1/32 (remote true) and
10.3.0.1/16 (remote false); and MaxQueue 39. -/
theorem c2_example_file :
    Parse1 exampleLines = .ok exampleStatus ∧ Parse2 exampleLines = .ok exampleStatus :=
  ⟨rfl, rfl⟩

/-! ## C10: the unguarded stats access -/

/-- C10: a GLOBAL STATS line whose sole comma-separated field contains
the text queue length makes parseStats read field index 1 of a
one-element list; in this total embedding that is the distinguished
panic outcome, which both drivers propagate un-wrapped, where the
error taxonomy of the specification would require a malformed-field
error. -/
theorem c10_stats_panic :
    parseStats statusZero "Max bcast / mcast queue length"
      = .panic "runtime error: index out of range"
    ∧ goSplitComma "Max bcast / mcast queue length" = ["Max bcast / mcast queue length"]
    ∧ Parse1 ["GLOBAL STATS", "Max bcast / mcast queue length"]
      = .panic "runtime error: index out of range"
    ∧ Parse2 ["GLOBAL STATS", "Max bcast / mcast queue length"]
      = .panic "runtime error: index out of range" :=
  ⟨rfl, rfl, rfl, rfl⟩

/-! ## C9: the two formulations disagree -/

/-- C9: the two Parse formulations return different results; one
stream separates them through the empty line (terminal for the second
driver, skipped by the first, which goes on to parse a client record),
another through a data line before any section header (error for the
second driver, ignored by the first). -/
theorem c9_formulations_disagree :
    Parse1 ["OpenVPN CLIENT LIST", "", "x,6.6.6.6:1000,1,2,Thu Nov  5 15:34:43 2015"]
      = .ok { updated := goZeroTime
              clients := [{ commonName := "x", realAddress := exampleAddr,
                            bytesReceived := 1, bytesSent := 2, since := 1446737683 }]
              routes := [], maxQueue := 0 }
    ∧ Parse2 ["OpenVPN CLIENT LIST", "", "x,6.6.6.6:1000,1,2,Thu Nov  5 15:34:43 2015"]
      = .ok statusZero
    ∧ Parse1 ["junk"] = .ok statusZero
    ∧ Parse2 ["junk"] = .fail "Error on line 1: Unexpected text encountered" :=
  ⟨rfl, rfl, rfl, rfl⟩

/-! ## C4: terminal markers -/

/-- C4 counterexample: the first Parse does not stop at an empty line —
on this stream a client record on the line after the empty line is
still parsed into the snapshot, refuting the claim that an empty line
always stops consumption and that lines past it are never parsed. -/
theorem c4_counterexample :
    Parse1 ["OpenVPN CLIENT LIST", "", "x,6.6.6.6:1000,1,2,Thu Nov  5 15:34:43 2015"]
      = .ok { updated := goZeroTime
              clients := [{ commonName := "x", realAddress := exampleAddr,
                            bytesReceived := 1, bytesSent := 2, since := 1446737683 }]
              routes := [], maxQueue := 0 } :=
  rfl

/-- C4 amended: in the second formulation a line equal to END and an
empty line are both terminal at any point — the snapshot built so far
is returned and later lines are never consumed.  In the first
formulation END is terminal at any live state, but an empty line is
merely skipped: state and snapshot are unchanged and parsing
continues with the following lines. -/
theorem c4_amended_terminal_markers (s : Status) (st n : Nat) (rest : List String)
    (h : st < stateEnd) :
    parse2Go s st n ("END" :: rest) = .ok s
    ∧ parse2Go s st n ("" :: rest) = .ok s
    ∧ parse1Go s st n ("END" :: rest) = .ok s
    ∧ parse1Go s st n ("" :: rest) = parse1Go s st (n + 1) rest := by
  refine ⟨rfl, rfl, ?_, ?_⟩
  · have h4 : ¬ stateEnd ≤ st := by omega
    simp only [parse1Go, if_neg h4]
    have hstep : p1Step s st "END" = .ok (s, stateEnd) := rfl
    rw [hstep]
    cases rest with
    | nil => rfl
    | cons t r => simp [parse1Go, stateEnd]
  · have h4 : ¬ stateEnd ≤ st := by omega
    simp only [parse1Go, if_neg h4]
    have hstep : p1Step s st "" = .ok (s, if stateUnknown < stateUnknown then stateUnknown else st) := rfl
    rw [hstep]
    simp

theorem c4_amended_witness :
    parse2Go statusZero stateClients 5 ["END", "x"] = .ok statusZero
    ∧ parse2Go statusZero stateClients 5 ["", "x"] = .ok statusZero
    ∧ parse1Go statusZero stateClients 5 ["END", "x"] = .ok statusZero
    ∧ parse1Go statusZero stateClients 5 ["", "x"] = parse1Go statusZero stateClients 6 ["x"] :=
  c4_amended_terminal_markers statusZero stateClients 5 ["x"] (by decide)

/-! ## C5: unexpected text before any header -/

/-- C5 counterexample: the first Parse does not abort on unclassifiable
text while no section header has been seen — its state switch has no
stateUnknown case, so the line is ignored and an (empty) snapshot is
returned without error, refuting the claim that Parse always errors
there. -/
theorem c5_counterexample : Parse1 ["junk"] = .ok statusZero :=
  rfl

/-- C5 amended: only the second formulation reports unexpected text
outside any known section.  For a non-empty line other than END that
contains no section marker and no Updated prefix, while the state is
still stateUnknown, the second Parse aborts with that error wrapped
with the line number and returns no snapshot, whereas the first Parse
silently skips the line and carries on unchanged. -/
theorem c5_amended_unexpected_text (s : Status) (n : Nat) (rest : List String) (t : String)
    (hne : t ≠ "") (hnd : t ≠ "END")
    (hc : goContains t "CLIENT LIST" = false)
    (hr : goContains t "ROUTING TABLE" = false)
    (hg : goContains t "GLOBAL STATS" = false)
    (hu : goStartsWith t "Updated," = false) :
    parse2Go s stateUnknown n (t :: rest)
      = .fail (wrapLineErr (n + 1) "Unexpected text encountered")
    ∧ parse1Go s stateUnknown n (t :: rest) = parse1Go s stateUnknown (n + 1) rest := by
  constructor
  · have hstep : p2Step s stateUnknown t = .fail "Unexpected text encountered" := by
      simp [p2Step, parseLine, hne, hnd, hc, hr, hg, hu, stateUnknown, stateClients,
        stateRoutes, stateStats, stateEnd]
    simp [parse2Go, hstep]
  · have hstep : p1Step s stateUnknown t = .ok (s, stateUnknown) := by
      simp [p1Step, parseUnknown, hne, hnd, hc, hr, hg, hu, stateUnknown, stateClients,
        stateRoutes, stateStats]
    simp [parse1Go, hstep, stateUnknown, stateEnd]

theorem c5_amended_witness :
    parse2Go statusZero stateUnknown 0 ["junk"]
      = .fail (wrapLineErr 1 "Unexpected text encountered")
    ∧ parse1Go statusZero stateUnknown 0 ["junk"] = parse1Go statusZero stateUnknown 1 [] :=
  c5_amended_unexpected_text statusZero 0 [] "junk" (by decide) (by decide) (by decide)
    (by decide) (by decide) (by decide)

/-! ## C6: column-header swallowing -/

/-- C6: in the Clients (respectively Routes) section, a line whose
record parse fails is silently skipped — snapshot unchanged, no
record appended, no error — exactly when its first comma-separated
field is the Common Name (respectively Virtual Address) column label;
with any other first field the failure is reported unchanged. -/
theorem c6_header_label_swallow (s : Status) (text e : String) :
    (parseClientParts (goSplitComma text) = .error e →
      ((goSplitComma text).headD "" = "Common Name" → parseClient s text = .ok s)
      ∧ ((goSplitComma text).headD "" ≠ "Common Name" → parseClient s text = .error e))
    ∧ (parseRouteParts (goSplitComma text) = .error e →
      ((goSplitComma text).headD "" = "Virtual Address" → parseRoutes s text = .ok s)
      ∧ ((goSplitComma text).headD "" ≠ "Virtual Address" → parseRoutes s text = .error e)) := by
  constructor
  · intro hf
    constructor
    · intro hl
      simp only [parseClient, hf]
      rw [if_pos hl]
    · intro hl
      simp only [parseClient, hf]
      rw [if_neg hl]
  · intro hf
    constructor
    · intro hl
      simp only [parseRoutes, hf]
      rw [if_pos hl]
    · intro hl
      simp only [parseRoutes, hf]
      rw [if_neg hl]

theorem c6_witness :
    parseClient statusZero "Common Name,Real Address,Bytes Received,Bytes Sent,Connected Since"
      = .ok statusZero
    ∧ parseClient statusZero "a,b" = .error "address b: missing port in address"
    ∧ parseRoutes statusZero "Virtual Address,Common Name,Real Address,Last Ref"
      = .ok statusZero
    ∧ parseRoutes statusZero "x,y" = .error "invalid CIDR address: x" :=
  ⟨((c6_header_label_swallow statusZero
        "Common Name,Real Address,Bytes Received,Bytes Sent,Connected Since"
        "address Real Address: missing port in address").1 (by rfl)).1 (by decide),
   ((c6_header_label_swallow statusZero "a,b"
        "address b: missing port in address").1 (by rfl)).2 (by decide),
   ((c6_header_label_swallow statusZero "Virtual Address,Common Name,Real Address,Last Ref"
        "invalid CIDR address: Virtual Address").2 (by rfl)).1 (by decide),
   ((c6_header_label_swallow statusZero "x,y"
        "invalid CIDR address: x").2 (by rfl)).2 (by decide)⟩

/-! ## C3: the route-address algorithm -/

/-- The four-step route-address algorithm as the specification words
it: strip the trailing remote marker, try CIDR, fall back to a bare IP
with a full-length mask matching the parsed address family, else fail
with an invalid-route-address error. -/
def parseRouteAddrSpec (text : String) : Except String RouteAddr :=
  let stripped := if goEndsWithC text then (goTrimC text, true) else (text, false)
  match goParseCIDR stripped.1 with
  | .ok (ip, mask) => .ok { ip := ip, mask := mask, remote := stripped.2 }
  | .error _ =>
    match goParseIP stripped.1 with
    | some ip =>
      .ok { ip := ip
            mask := if (goTo4 ip).isSome then cidrMask 32 32 else cidrMask 128 128
            remote := stripped.2 }
    | none => .error "invalid route address"

/-- C3: on every input, parseRouteAddr returns exactly what the
four-step specification algorithm returns (they differ only in the
text of the final error, so the comparison is on outcomes); in
particular the three examples of the specification parse to
10.1.0.1/32 remote, 10.3.0.1/16 non-remote and 10.0.0.1/32
non-remote. -/
theorem c3_route_addr_algorithm :
    (∀ text, exOpt (parseRouteAddr text) = exOpt (parseRouteAddrSpec text))
    ∧ parseRouteAddr "10.1.0.1C"
      = .ok { ip := ipv4Mapped 10 1 0 1, mask := cidrMask 32 32, remote := true }
    ∧ parseRouteAddr "10.3.0.1/16"
      = .ok { ip := ipv4Mapped 10 3 0 1, mask := cidrMask 16 32, remote := false }
    ∧ parseRouteAddr "10.0.0.1"
      = .ok { ip := ipv4Mapped 10 0 0 1, mask := cidrMask 32 32, remote := false } := by
  refine ⟨?_, rfl, rfl, rfl⟩
  intro text
  simp only [parseRouteAddr, parseRouteAddrSpec]
  cases hC : goParseCIDR (if goEndsWithC text then (goTrimC text, true) else (text, false)).1 with
  | ok pr =>
    cases pr
    simp [exOpt]
  | error e =>
    cases hI : goParseIP (if goEndsWithC text then (goTrimC text, true) else (text, false)).1 with
    | some ip =>
      cases hT : goTo4 ip <;> simp [exOpt, hT]
    | none => simp [exOpt]

/-! ## C8: the generic record filler -/

/-- Writing a run of values into a list starting at an index, the way
the filler loop stores parsed fields. -/
def setFrom : List FVal → Nat → List FVal → List FVal
  | rec, _, [] => rec
  | rec, i, v :: vs => setFrom (rec.set i v) (i + 1) vs

theorem setFrom_cons_shift (a : FVal) (l : List FVal) (i : Nat) (vs : List FVal) :
    setFrom (a :: l) (i + 1) vs = a :: setFrom l i vs := by
  induction vs generalizing a l i with
  | nil => rfl
  | cons v vs ih =>
    show setFrom ((a :: l).set (i + 1) v) (i + 2) vs = a :: setFrom (l.set i v) (i + 1) vs
    rw [List.set_cons_succ, ih]

theorem setFrom_zero_fill (ts : List FTy) (vs : List FVal) (h : vs.length ≤ ts.length) :
    setFrom (ts.map zeroVal) 0 vs = vs ++ (ts.drop vs.length).map zeroVal := by
  induction vs generalizing ts with
  | nil => simp [setFrom]
  | cons v vs ih =>
    cases ts with
    | nil => simp at h
    | cons t ts2 =>
      show setFrom ((zeroVal t :: ts2.map zeroVal).set 0 v) 1 vs = _
      rw [List.set_cons_zero, setFrom_cons_shift, ih ts2 (by simpa using h)]
      simp

theorem mapM_ok_length {α β : Type} (f : α → Except String β) :
    ∀ (l : List α) (vs : List β), l.mapM f = .ok vs → vs.length = l.length := by
  intro l
  induction l with
  | nil =>
    intro vs h
    simp only [List.mapM_nil, pure, Except.pure] at h
    cases h
    rfl
  | cons a l ih =>
    intro vs h
    simp only [List.mapM_cons] at h
    cases hf : f a with
    | error e => rw [hf] at h; simp [bind, Except.bind] at h
    | ok b =>
      rw [hf] at h
      simp only [bind, Except.bind] at h
      cases hl : l.mapM f with
      | error e => rw [hl] at h; simp [bind, Except.bind, pure, Except.pure] at h
      | ok bs =>
        rw [hl] at h
        simp only [bind, Except.bind, pure, Except.pure] at h
        cases h
        simp [ih bs hl]

theorem psLoop_spec (tsRem : List FTy) :
    ∀ (ps : List String) (i : Nat) (rec : List FVal),
      psLoop tsRem ps i rec =
        match (tsRem.zip (ps.drop i)).mapM (fun tp => parseField tp.1 tp.2) with
        | .error e => .error e
        | .ok vs => .ok (setFrom rec i vs) := by
  induction tsRem with
  | nil =>
    intro ps i rec
    rfl
  | cons ty tsRem2 ih =>
    intro ps i rec
    cases hg : ps[i]? with
    | none =>
      have hlen : ps.length ≤ i := List.getElem?_eq_none_iff.mp hg
      rw [List.drop_eq_nil_of_le hlen]
      simp only [psLoop, hg]
      rfl
    | some p =>
      have hlt : i < ps.length := by
        by_contra hge
        rw [List.getElem?_eq_none_iff.mpr (by omega)] at hg
        cases hg
      have hdrop : ps.drop i = p :: ps.drop (i + 1) := by
        have hgg := List.getElem?_eq_getElem hlt
        rw [hg] at hgg
        rw [List.drop_eq_getElem_cons hlt]
        cases hgg
        rfl
      rw [hdrop]
      simp only [psLoop, hg, List.zip_cons_cons, List.mapM_cons]
      cases hf : parseField ty p with
      | error e => simp [bind, Except.bind, hf]
      | ok v =>
        simp only [hf, bind, Except.bind]
        rw [ih ps (i + 1) (rec.set i v)]
        cases hm : (tsRem2.zip (ps.drop (i + 1))).mapM (fun tp => parseField tp.1 tp.2) with
        | error e => simp
        | ok vs => simp [setFrom, pure, Except.pure]

/-- C8: the generic record filler fills the record field at every
position below both lengths from the text field at the same position
(the typed dispatch is parseField), ignores text fields beyond the
record arity, keeps the zero value in record fields beyond the text
arity, and aborts the whole record with the first field error. -/
theorem c8_struct_parts_spec (ts : List FTy) (ps : List String) :
    parseStructParts ts ps =
      match (ts.zip ps).mapM (fun tp => parseField tp.1 tp.2) with
      | .error e => .error e
      | .ok vs => .ok (vs ++ (ts.drop ps.length).map zeroVal) := by
  show psLoop ts ps 0 (ts.map zeroVal) = _
  rw [psLoop_spec ts ps 0 (ts.map zeroVal)]
  simp only [List.drop_zero]
  cases hm : (ts.zip ps).mapM (fun tp => parseField tp.1 tp.2) with
  | error e => rfl
  | ok vs =>
    have hlen : vs.length = min ts.length ps.length := by
      rw [mapM_ok_length _ _ _ hm, List.length_zip]
    show Except.ok (setFrom (ts.map zeroVal) 0 vs)
      = Except.ok (vs ++ (ts.drop ps.length).map zeroVal)
    rw [setFrom_zero_fill ts vs (by omega)]
    have hdd : ts.drop vs.length = ts.drop ps.length := by
      rcases Nat.le_total ts.length ps.length with hle | hle
      · rw [List.drop_eq_nil_of_le (by omega), List.drop_eq_nil_of_le (by omega)]
      · congr 1
        omega
    rw [hdd]

/-! ## C7: error wrapping with the line number -/

theorem p1_fail_shape (lines : List String) :
    ∀ (s : Status) (cs n : Nat) (e : String),
      parse1Go s cs n lines = .fail e →
      ∃ m orig, m < lines.length ∧ e = wrapLineErr (n + m + 1) orig ∧
        ∃ s2, parse1Go s cs n (lines.take m) = .ok s2 := by
  induction lines with
  | nil =>
    intro s cs n e h
    simp only [parse1Go] at h
    cases h
  | cons t rest ih =>
    intro s cs n e h
    by_cases hcs : stateEnd ≤ cs
    · simp only [parse1Go, if_pos hcs] at h
      cases h
    · simp only [parse1Go, if_neg hcs] at h
      cases hstep : p1Step s cs t with
      | ok pr =>
        obtain ⟨s2, cs2⟩ := pr
        rw [hstep] at h
        obtain ⟨m, orig, hm, he, s3, htake⟩ := ih s2 cs2 (n + 1) e h
        refine ⟨m + 1, orig, by simp only [List.length_cons]; omega, ?_, s3, ?_⟩
        · have harith : n + 1 + m + 1 = n + (m + 1) + 1 := by omega
          rw [harith] at he
          exact he
        · rw [List.take_succ_cons]
          simp only [parse1Go, if_neg hcs, hstep]
          exact htake
      | fail e0 =>
        rw [hstep] at h
        cases h
        exact ⟨0, e0, by simp, by simp, s, rfl⟩
      | panic m0 =>
        rw [hstep] at h
        cases h

theorem p2_fail_shape (lines : List String) :
    ∀ (s : Status) (st n : Nat) (e : String),
      parse2Go s st n lines = .fail e →
      ∃ m orig, m < lines.length ∧ e = wrapLineErr (n + m + 1) orig ∧
        ∃ s2, parse2Go s st n (lines.take m) = .ok s2 := by
  induction lines with
  | nil =>
    intro s st n e h
    simp only [parse2Go] at h
    cases h
  | cons t rest ih =>
    intro s st n e h
    simp only [parse2Go] at h
    cases hstep : p2Step s st t with
    | cont s2 st2 =>
      rw [hstep] at h
      obtain ⟨m, orig, hm, he, s3, htake⟩ := ih s2 st2 (n + 1) e h
      refine ⟨m + 1, orig, by simp only [List.length_cons]; omega, ?_, s3, ?_⟩
      · have harith : n + 1 + m + 1 = n + (m + 1) + 1 := by omega
        rw [harith] at he
        exact he
      · rw [List.take_succ_cons]
        simp only [parse2Go, hstep]
        exact htake
    | stop =>
      rw [hstep] at h
      cases h
    | fail e0 =>
      rw [hstep] at h
      cases h
      exact ⟨0, e0, by simp, by simp, s, rfl⟩
    | panic m0 =>
      rw [hstep] at h
      cases h

/-- C7: whenever either Parse formulation reports an error (the fail
outcome — the taxonomy of field and line errors; the stats panic is a
separate outcome), the error text is the original error wrapped with
the 1-based number of a line inside the stream, all lines before that
line having been processed without error; the fail outcome carries no
snapshot, so no partially filled snapshot accompanies an error. -/
theorem c7_line_number_wrapping (lines : List String) (e : String) :
    (Parse1 lines = .fail e →
      ∃ k orig, 1 ≤ k ∧ k ≤ lines.length ∧ e = wrapLineErr k orig ∧
        ∃ s2, parse1Go statusZero stateUnknown 0 (lines.take (k - 1)) = .ok s2)
    ∧ (Parse2 lines = .fail e →
      ∃ k orig, 1 ≤ k ∧ k ≤ lines.length ∧ e = wrapLineErr k orig ∧
        ∃ s2, parse2Go statusZero stateUnknown 0 (lines.take (k - 1)) = .ok s2) := by
  constructor
  · intro h
    obtain ⟨m, orig, hm, he, s2, htake⟩ := p1_fail_shape lines statusZero stateUnknown 0 e h
    exact ⟨m + 1, orig, by omega, by omega, by simpa using he, s2, by simpa using htake⟩
  · intro h
    obtain ⟨m, orig, hm, he, s2, htake⟩ := p2_fail_shape lines statusZero stateUnknown 0 e h
    exact ⟨m + 1, orig, by omega, by omega, by simpa using he, s2, by simpa using htake⟩

theorem c7_witness :
    ∃ k orig, 1 ≤ k ∧ k ≤ (["OpenVPN CLIENT LIST", "a,b"] : List String).length
      ∧ "Error on line 2: address b: missing port in address" = wrapLineErr k orig
      ∧ ∃ s2, parse1Go statusZero stateUnknown 0
          ((["OpenVPN CLIENT LIST", "a,b"] : List String).take (k - 1)) = .ok s2 :=
  (c7_line_number_wrapping ["OpenVPN CLIENT LIST", "a,b"]
    "Error on line 2: address b: missing port in address").1 (by rfl)

/-! ## C1: well-formed streams of the section-6 grammar

A well-formed stream is rendered from typed section content: the
CLIENT LIST header, an optional Updated line, the column-header line,
the client data lines, the ROUTING TABLE header and column-header
line, the route data lines, the GLOBAL STATS header, the queue-length
line and END.  Well-formedness requires of every data field that its
typed parse succeeds and that the rendered line splits back into its
fields (fields hold no comma), and of every rendered data line that it
is not mistakable for a header, terminal or Updated line — the
grammar's fields (names, addresses, counters, timestamps) have these
properties by construction. -/

structure GClient where
  name : String
  addr : String
  recv : String
  sent : String
  since : String

def renderClient (c : GClient) : String :=
  c.name ++ "," ++ c.addr ++ "," ++ c.recv ++ "," ++ c.sent ++ "," ++ c.since

structure GRoute where
  virt : String
  name : String
  addr : String
  lastRef : String

def renderRoute (r : GRoute) : String :=
  r.virt ++ "," ++ r.name ++ "," ++ r.addr ++ "," ++ r.lastRef

def clientHeaderLine : String :=
  "Common Name,Real Address,Bytes Received,Bytes Sent,Connected Since"

def routeHeaderLine : String :=
  "Virtual Address,Common Name,Real Address,Last Ref"

def statsLine (q : String) : String :=
  "Max bcast / mcast queue length," ++ q

structure GFile where
  updated : Option String
  clients : List GClient
  routes : List GRoute
  queue : String

def render (g : GFile) : List String :=
  "OpenVPN CLIENT LIST"
    :: ((match g.updated with
         | some u => ["Updated," ++ u]
         | none => [])
      ++ clientHeaderLine
      :: (g.clients.map renderClient
        ++ "ROUTING TABLE"
        :: routeHeaderLine
        :: (g.routes.map renderRoute
          ++ ["GLOBAL STATS", statsLine g.queue, "END"])))

/-- A line that reaches the record parser of its section: not a
terminal marker, no section-header marker inside it, no Updated
prefix. -/
abbrev dataLineOK (line : String) : Prop :=
  line ≠ "END" ∧ line ≠ "" ∧
  goContains line "CLIENT LIST" = false ∧
  goContains line "ROUTING TABLE" = false ∧
  goContains line "GLOBAL STATS" = false ∧
  goStartsWith line "Updated," = false

abbrev GClientOK (c : GClient) : Prop :=
  dataLineOK (renderClient c) ∧
  goSplitComma (renderClient c) = [c.name, c.addr, c.recv, c.sent, c.since] ∧
  isOkE (parseAddr c.addr) = true ∧
  isOkE (goParseUint64 c.recv) = true ∧
  isOkE (goParseUint64 c.sent) = true ∧
  isOkE (parseTimeS c.since) = true

abbrev GRouteOK (r : GRoute) : Prop :=
  dataLineOK (renderRoute r) ∧
  goSplitComma (renderRoute r) = [r.virt, r.name, r.addr, r.lastRef] ∧
  isOkE (parseRouteAddr r.virt) = true ∧
  isOkE (parseAddr r.addr) = true ∧
  isOkE (parseTimeS r.lastRef) = true

abbrev updatedLineOK : Option String → Prop
  | none => True
  | some u =>
    ("Updated," ++ u) ≠ "END" ∧ ("Updated," ++ u) ≠ "" ∧
    goContains ("Updated," ++ u) "CLIENT LIST" = false ∧
    goContains ("Updated," ++ u) "ROUTING TABLE" = false ∧
    goContains ("Updated," ++ u) "GLOBAL STATS" = false ∧
    goStartsWith ("Updated," ++ u) "Updated," = true ∧
    isOkE (parseTimeS u) = true

abbrev queueOK (q : String) : Prop :=
  dataLineOK (statsLine q) ∧
  goSplitComma (statsLine q) = ["Max bcast / mcast queue length", q] ∧
  isOkE (goParseUint64 q) = true

abbrev WellFormed (g : GFile) : Prop :=
  (∀ c ∈ g.clients, GClientOK c) ∧ (∀ r ∈ g.routes, GRouteOK r)
    ∧ updatedLineOK g.updated ∧ queueOK g.queue

/-- The Client record a well-formed data line parses to. -/
def parsedClient (c : GClient) : Client :=
  { commonName := c.name
    realAddress := okD (parseAddr c.addr) addrZero
    bytesReceived := okD (goParseUint64 c.recv) 0
    bytesSent := okD (goParseUint64 c.sent) 0
    since := okD (parseTimeS c.since) goZeroTime }

/-- The Route record a well-formed data line parses to. -/
def parsedRoute (r : GRoute) : Route :=
  { virtualAddress := okD (parseRouteAddr r.virt) routeAddrZero
    commonName := r.name
    realAddress := okD (parseAddr r.addr) addrZero
    lastRef := okD (parseTimeS r.lastRef) goZeroTime }

theorem okD_spec {ε α : Type} (x : Except ε α) (d : α) (h : isOkE x = true) :
    x = .ok (okD x d) := by
  cases x with
  | ok a => rfl
  | error e => simp [isOkE] at h

theorem parseClientParts_ok (c : GClient) (h : GClientOK c) :
    parseClientParts [c.name, c.addr, c.recv, c.sent, c.since] = .ok (parsedClient c) := by
  obtain ⟨-, -, ha, hr, hs, ht⟩ := h
  obtain ⟨av, ha2⟩ : ∃ v, parseAddr c.addr = .ok v := ⟨_, okD_spec _ addrZero ha⟩
  obtain ⟨rv, hr2⟩ : ∃ v, goParseUint64 c.recv = .ok v := ⟨_, okD_spec _ 0 hr⟩
  obtain ⟨sv, hs2⟩ : ∃ v, goParseUint64 c.sent = .ok v := ⟨_, okD_spec _ 0 hs⟩
  obtain ⟨tv, ht2⟩ : ∃ v, parseTimeS c.since = .ok v := ⟨_, okD_spec _ goZeroTime ht⟩
  have hres : parsedClient c
      = { commonName := c.name, realAddress := av, bytesReceived := rv,
          bytesSent := sv, since := tv } := by
    simp [parsedClient, ha2, hr2, hs2, ht2, okD]
  rw [hres]
  simp only [parseClientParts, parseStructParts, clientSchema, List.map, zeroVal, psLoop,
    List.getElem?_cons_zero, List.getElem?_cons_succ, parseField]
  rw [ha2, hr2, hs2, ht2]
  rfl

theorem parseRouteParts_ok (r : GRoute) (h : GRouteOK r) :
    parseRouteParts [r.virt, r.name, r.addr, r.lastRef] = .ok (parsedRoute r) := by
  obtain ⟨-, -, hv, ha, ht⟩ := h
  obtain ⟨vv, hv2⟩ : ∃ v, parseRouteAddr r.virt = .ok v := ⟨_, okD_spec _ routeAddrZero hv⟩
  obtain ⟨av, ha2⟩ : ∃ v, parseAddr r.addr = .ok v := ⟨_, okD_spec _ addrZero ha⟩
  obtain ⟨tv, ht2⟩ : ∃ v, parseTimeS r.lastRef = .ok v := ⟨_, okD_spec _ goZeroTime ht⟩
  have hres : parsedRoute r
      = { virtualAddress := vv, commonName := r.name, realAddress := av, lastRef := tv } := by
    simp [parsedRoute, hv2, ha2, ht2, okD]
  rw [hres]
  simp only [parseRouteParts, parseStructParts, routeSchema, List.map, zeroVal, psLoop,
    List.getElem?_cons_zero, List.getElem?_cons_succ, parseField]
  rw [hv2, ha2, ht2]
  rfl

/-! Per-line step lemmas for the first driver. -/

theorem p1Step_clientsHdr (s : Status) (cs : Nat) :
    p1Step s cs "OpenVPN CLIENT LIST" = .ok (s, stateClients) := rfl

theorem p1Step_routesHdr (s : Status) (cs : Nat) :
    p1Step s cs "ROUTING TABLE" = .ok (s, stateRoutes) := rfl

theorem p1Step_statsHdr (s : Status) (cs : Nat) :
    p1Step s cs "GLOBAL STATS" = .ok (s, stateStats) := rfl

theorem p1Step_end (s : Status) (cs : Nat) :
    p1Step s cs "END" = .ok (s, stateEnd) := rfl

theorem p1Step_clientHeaderLine (s : Status) :
    p1Step s stateClients clientHeaderLine = .ok (s, stateClients) := rfl

theorem p1Step_routeHeaderLine (s : Status) :
    p1Step s stateRoutes routeHeaderLine = .ok (s, stateRoutes) := rfl

theorem p1Step_updated (s : Status) (u : String) (h : updatedLineOK (some u)) :
    p1Step s stateClients ("Updated," ++ u)
      = .ok ({ s with updated := okD (parseTimeS u) goZeroTime }, stateClients) := by
  obtain ⟨hE, hN, hC, hR, hG, hU, hT⟩ := h
  obtain ⟨tv, ht2⟩ : ∃ v, parseTimeS u = .ok v := ⟨_, okD_spec _ goZeroTime hT⟩
  have hdrop : goStrDrop ("Updated," ++ u) 8 = u := rfl
  simp only [p1Step, parseUnknown, if_neg hE, if_neg hN, hC, hR, hG, hU, if_false,
    Bool.false_eq_true, if_true, hdrop]
  simp [ht2, okD]

theorem p1Step_client (s : Status) (c : GClient) (h : GClientOK c) :
    p1Step s stateClients (renderClient c)
      = .ok ({ s with clients := s.clients ++ [parsedClient c] }, stateClients) := by
  have hparts := parseClientParts_ok c h
  obtain ⟨⟨hE, hN, hC, hR, hG, hU⟩, hsplit, -⟩ := h
  simp only [p1Step, parseUnknown, if_neg hE, if_neg hN, hC, hR, hG, hU, if_false,
    Bool.false_eq_true]
  simp [parseClient, hsplit, hparts]

theorem p1Step_route (s : Status) (r : GRoute) (h : GRouteOK r) :
    p1Step s stateRoutes (renderRoute r)
      = .ok ({ s with routes := s.routes ++ [parsedRoute r] }, stateRoutes) := by
  have hparts := parseRouteParts_ok r h
  obtain ⟨⟨hE, hN, hC, hR, hG, hU⟩, hsplit, -⟩ := h
  simp only [p1Step, parseUnknown, if_neg hE, if_neg hN, hC, hR, hG, hU, if_false,
    Bool.false_eq_true]
  simp [parseRoutes, hsplit, hparts]

theorem p1Step_stats (s : Status) (q : String) (h : queueOK q) :
    p1Step s stateStats (statsLine q)
      = .ok ({ s with maxQueue := okD (goParseUint64 q) 0 }, stateStats) := by
  obtain ⟨⟨hE, hN, hC, hR, hG, hU⟩, hsplit, hq⟩ := h
  obtain ⟨qv, hq2⟩ : ∃ v, goParseUint64 q = .ok v := ⟨_, okD_spec _ 0 hq⟩
  simp only [p1Step, parseUnknown, if_neg hE, if_neg hN, hC, hR, hG, hU, if_false,
    Bool.false_eq_true]
  simp [parseStats, hsplit, hq2, okD]
  rw [if_pos (by decide : goContains "Max bcast / mcast queue length" "queue length" = true)]

/-! Per-line step lemmas for the second driver. -/

theorem p2Step_clientsHdr (s : Status) (st : Nat) :
    p2Step s st "OpenVPN CLIENT LIST" = .cont s stateClients := rfl

theorem p2Step_routesHdr (s : Status) (st : Nat) :
    p2Step s st "ROUTING TABLE" = .cont s stateRoutes := rfl

theorem p2Step_statsHdr (s : Status) (st : Nat) :
    p2Step s st "GLOBAL STATS" = .cont s stateStats := rfl

theorem p2Step_end (s : Status) (st : Nat) :
    p2Step s st "END" = .stop := rfl

theorem p2Step_clientHeaderLine (s : Status) :
    p2Step s stateClients clientHeaderLine = .cont s stateClients := rfl

theorem p2Step_routeHeaderLine (s : Status) :
    p2Step s stateRoutes routeHeaderLine = .cont s stateRoutes := rfl

theorem p2Step_updated (s : Status) (st : Nat) (u : String) (h : updatedLineOK (some u)) :
    p2Step s st ("Updated," ++ u)
      = .cont { s with updated := okD (parseTimeS u) goZeroTime } st := by
  obtain ⟨hE, hN, hC, hR, hG, hU, hT⟩ := h
  obtain ⟨tv, ht2⟩ : ∃ v, parseTimeS u = .ok v := ⟨_, okD_spec _ goZeroTime hT⟩
  have hlen7 : ¬ ("Updated," ++ u).data.length < 7 := by
    have hdata : ("Updated," ++ u).data
        = 'U' :: 'p' :: 'd' :: 'a' :: 't' :: 'e' :: 'd' :: ',' :: u.data := rfl
    rw [hdata]
    simp
  have hlen8 : ¬ ("Updated," ++ u).data.length < 8 := by
    have hdata : ("Updated," ++ u).data
        = 'U' :: 'p' :: 'd' :: 'a' :: 't' :: 'e' :: 'd' :: ',' :: u.data := rfl
    rw [hdata]
    simp
  have htake : goStrTake ("Updated," ++ u) 7 = "Updated" := rfl
  have hdrop : goStrDrop ("Updated," ++ u) 8 = u := rfl
  simp only [p2Step, parseLine, hC, hR, hG, hU, if_false, Bool.false_eq_true, if_true,
    if_neg (by simp [hE, hN] : ¬ (("Updated," ++ u) = "END" ∨ ("Updated," ++ u) = ""))]
  simp only [applyFn, parseUpdated, if_neg hlen7, if_neg hlen8, htake, hdrop]
  simp [ht2, okD]

theorem p2Step_client (s : Status) (c : GClient) (h : GClientOK c) :
    p2Step s stateClients (renderClient c)
      = .cont { s with clients := s.clients ++ [parsedClient c] } stateClients := by
  have hparts := parseClientParts_ok c h
  obtain ⟨⟨hE, hN, hC, hR, hG, hU⟩, hsplit, -⟩ := h
  simp only [p2Step, parseLine, hC, hR, hG, hU, if_false, Bool.false_eq_true,
    if_neg (by simp [hE, hN] : ¬ (renderClient c = "END" ∨ renderClient c = ""))]
  simp [applyFn, liftE, parseClient, hsplit, hparts]

theorem p2Step_route (s : Status) (r : GRoute) (h : GRouteOK r) :
    p2Step s stateRoutes (renderRoute r)
      = .cont { s with routes := s.routes ++ [parsedRoute r] } stateRoutes := by
  have hparts := parseRouteParts_ok r h
  obtain ⟨⟨hE, hN, hC, hR, hG, hU⟩, hsplit, -⟩ := h
  simp only [p2Step, parseLine, hC, hR, hG, hU, if_false, Bool.false_eq_true,
    if_neg (by simp [hE, hN] : ¬ (renderRoute r = "END" ∨ renderRoute r = ""))]
  simp [applyFn, liftE, parseRoute, parseRoutes, hsplit, hparts]

theorem p2Step_stats (s : Status) (q : String) (h : queueOK q) :
    p2Step s stateStats (statsLine q)
      = .cont { s with maxQueue := okD (goParseUint64 q) 0 } stateStats := by
  obtain ⟨⟨hE, hN, hC, hR, hG, hU⟩, hsplit, hq⟩ := h
  obtain ⟨qv, hq2⟩ : ∃ v, goParseUint64 q = .ok v := ⟨_, okD_spec _ 0 hq⟩
  simp only [p2Step, parseLine, hC, hR, hG, hU, if_false, Bool.false_eq_true,
    if_neg (by simp [hE, hN] : ¬ (statsLine q = "END" ∨ statsLine q = ""))]
  simp [applyFn, parseStat, parseStats, hsplit, hq2, okD]
  rw [if_pos (by decide : goContains "Max bcast / mcast queue length" "queue length" = true)]

/-! Driver loops over whole sections. -/

theorem parse1Go_cons_ok (s s2 : Status) (cs cs2 n : Nat) (t : String) (rest : List String)
    (hcs : cs < stateEnd) (hstep : p1Step s cs t = .ok (s2, cs2)) :
    parse1Go s cs n (t :: rest) = parse1Go s2 cs2 (n + 1) rest := by
  simp only [parse1Go, if_neg (by omega : ¬ stateEnd ≤ cs), hstep]

theorem parse2Go_cons_cont (s s2 : Status) (st st2 n : Nat) (t : String) (rest : List String)
    (hstep : p2Step s st t = .cont s2 st2) :
    parse2Go s st n (t :: rest) = parse2Go s2 st2 (n + 1) rest := by
  simp only [parse2Go, hstep]

theorem parse2Go_cons_stop (s : Status) (st n : Nat) (t : String) (rest : List String)
    (hstep : p2Step s st t = .stop) :
    parse2Go s st n (t :: rest) = .ok s := by
  simp only [parse2Go, hstep]

theorem p1_clients_loop (cls : List GClient) :
    ∀ (s : Status) (n : Nat) (rest : List String), (∀ c ∈ cls, GClientOK c) →
      parse1Go s stateClients n (cls.map renderClient ++ rest)
        = parse1Go { s with clients := s.clients ++ cls.map parsedClient }
            stateClients (n + cls.length) rest := by
  induction cls with
  | nil =>
    intro s n rest hc
    simp
  | cons c cls2 ih =>
    intro s n rest hc
    simp only [List.map_cons, List.cons_append, List.length_cons]
    have harr : s.clients ++ parsedClient c :: cls2.map parsedClient
        = (s.clients ++ [parsedClient c]) ++ cls2.map parsedClient := by simp
    rw [harr, show n + (cls2.length + 1) = n + 1 + cls2.length from by omega]
    rw [parse1Go_cons_ok s _ stateClients stateClients n _ _ (by decide)
      (p1Step_client s c (hc c (by simp)))]
    exact ih _ (n + 1) rest (fun x hx => hc x (List.mem_cons_of_mem _ hx))

theorem p1_routes_loop (rts : List GRoute) :
    ∀ (s : Status) (n : Nat) (rest : List String), (∀ r ∈ rts, GRouteOK r) →
      parse1Go s stateRoutes n (rts.map renderRoute ++ rest)
        = parse1Go { s with routes := s.routes ++ rts.map parsedRoute }
            stateRoutes (n + rts.length) rest := by
  induction rts with
  | nil =>
    intro s n rest hr
    simp
  | cons r rts2 ih =>
    intro s n rest hr
    simp only [List.map_cons, List.cons_append, List.length_cons]
    have harr : s.routes ++ parsedRoute r :: rts2.map parsedRoute
        = (s.routes ++ [parsedRoute r]) ++ rts2.map parsedRoute := by simp
    rw [harr, show n + (rts2.length + 1) = n + 1 + rts2.length from by omega]
    rw [parse1Go_cons_ok s _ stateRoutes stateRoutes n _ _ (by decide)
      (p1Step_route s r (hr r (by simp)))]
    exact ih _ (n + 1) rest (fun x hx => hr x (List.mem_cons_of_mem _ hx))

theorem p2_clients_loop (cls : List GClient) :
    ∀ (s : Status) (n : Nat) (rest : List String), (∀ c ∈ cls, GClientOK c) →
      parse2Go s stateClients n (cls.map renderClient ++ rest)
        = parse2Go { s with clients := s.clients ++ cls.map parsedClient }
            stateClients (n + cls.length) rest := by
  induction cls with
  | nil =>
    intro s n rest hc
    simp
  | cons c cls2 ih =>
    intro s n rest hc
    simp only [List.map_cons, List.cons_append, List.length_cons]
    have harr : s.clients ++ parsedClient c :: cls2.map parsedClient
        = (s.clients ++ [parsedClient c]) ++ cls2.map parsedClient := by simp
    rw [harr, show n + (cls2.length + 1) = n + 1 + cls2.length from by omega]
    rw [parse2Go_cons_cont s _ stateClients stateClients n _ _
      (p2Step_client s c (hc c (by simp)))]
    exact ih _ (n + 1) rest (fun x hx => hc x (List.mem_cons_of_mem _ hx))

theorem p2_routes_loop (rts : List GRoute) :
    ∀ (s : Status) (n : Nat) (rest : List String), (∀ r ∈ rts, GRouteOK r) →
      parse2Go s stateRoutes n (rts.map renderRoute ++ rest)
        = parse2Go { s with routes := s.routes ++ rts.map parsedRoute }
            stateRoutes (n + rts.length) rest := by
  induction rts with
  | nil =>
    intro s n rest hr
    simp
  | cons r rts2 ih =>
    intro s n rest hr
    simp only [List.map_cons, List.cons_append, List.length_cons]
    have harr : s.routes ++ parsedRoute r :: rts2.map parsedRoute
        = (s.routes ++ [parsedRoute r]) ++ rts2.map parsedRoute := by simp
    rw [harr, show n + (rts2.length + 1) = n + 1 + rts2.length from by omega]
    rw [parse2Go_cons_cont s _ stateRoutes stateRoutes n _ _
      (p2Step_route s r (hr r (by simp)))]
    exact ih _ (n + 1) rest (fun x hx => hr x (List.mem_cons_of_mem _ hx))

/-- The first driver over everything from the column-header line on. -/
theorem p1_tail (cls : List GClient) (rts : List GRoute) (q : String)
    (hc : ∀ c ∈ cls, GClientOK c) (hr : ∀ r ∈ rts, GRouteOK r) (hq : queueOK q)
    (s : Status) (n : Nat) :
    parse1Go s stateClients n
      (clientHeaderLine :: (cls.map renderClient
        ++ "ROUTING TABLE" :: routeHeaderLine :: (rts.map renderRoute
          ++ ["GLOBAL STATS", statsLine q, "END"])))
      = .ok { updated := s.updated, clients := s.clients ++ cls.map parsedClient,
              routes := s.routes ++ rts.map parsedRoute,
              maxQueue := okD (goParseUint64 q) 0 } := by
  rw [parse1Go_cons_ok _ _ _ _ _ _ _ (by decide) (p1Step_clientHeaderLine s)]
  rw [p1_clients_loop cls _ _ _ hc]
  rw [parse1Go_cons_ok _ _ _ _ _ _ _ (by decide) (p1Step_routesHdr _ _)]
  rw [parse1Go_cons_ok _ _ _ _ _ _ _ (by decide) (p1Step_routeHeaderLine _)]
  rw [p1_routes_loop rts _ _ _ hr]
  rw [parse1Go_cons_ok _ _ _ _ _ _ _ (by decide) (p1Step_statsHdr _ _)]
  rw [parse1Go_cons_ok _ _ _ _ _ _ _ (by decide) (p1Step_stats _ q hq)]
  rw [parse1Go_cons_ok _ _ _ _ _ _ _ (by decide) (p1Step_end _ _)]
  rfl

/-- The second driver over everything from the column-header line on. -/
theorem p2_tail (cls : List GClient) (rts : List GRoute) (q : String)
    (hc : ∀ c ∈ cls, GClientOK c) (hr : ∀ r ∈ rts, GRouteOK r) (hq : queueOK q)
    (s : Status) (n : Nat) :
    parse2Go s stateClients n
      (clientHeaderLine :: (cls.map renderClient
        ++ "ROUTING TABLE" :: routeHeaderLine :: (rts.map renderRoute
          ++ ["GLOBAL STATS", statsLine q, "END"])))
      = .ok { updated := s.updated, clients := s.clients ++ cls.map parsedClient,
              routes := s.routes ++ rts.map parsedRoute,
              maxQueue := okD (goParseUint64 q) 0 } := by
  rw [parse2Go_cons_cont _ _ _ _ _ _ _ (p2Step_clientHeaderLine s)]
  rw [p2_clients_loop cls _ _ _ hc]
  rw [parse2Go_cons_cont _ _ _ _ _ _ _ (p2Step_routesHdr _ _)]
  rw [parse2Go_cons_cont _ _ _ _ _ _ _ (p2Step_routeHeaderLine _)]
  rw [p2_routes_loop rts _ _ _ hr]
  rw [parse2Go_cons_cont _ _ _ _ _ _ _ (p2Step_statsHdr _ _)]
  rw [parse2Go_cons_cont _ _ _ _ _ _ _ (p2Step_stats _ q hq)]
  rw [parse2Go_cons_stop _ _ _ _ _ (p2Step_end _ _)]

/-- C1: both Parse formulations succeed on every well-formed stream of
the section-6 grammar, and each resulting snapshot holds exactly one
Client per CLIENT LIST data line and exactly one Route per ROUTING
TABLE data line, in input order (the record sequences are the maps of
the per-line parses over the data lines). -/
theorem c1_wellformed_parse (g : GFile) (h : WellFormed g) :
    ∃ s1 s2 : Status,
      Parse1 (render g) = .ok s1 ∧ Parse2 (render g) = .ok s2
      ∧ s1.clients = g.clients.map parsedClient ∧ s1.routes = g.routes.map parsedRoute
      ∧ s2.clients = g.clients.map parsedClient ∧ s2.routes = g.routes.map parsedRoute
      ∧ s1.clients.length = g.clients.length ∧ s1.routes.length = g.routes.length
      ∧ s2.clients.length = g.clients.length ∧ s2.routes.length = g.routes.length := by
  obtain ⟨hc, hr, hu, hq⟩ := h
  cases hgu : g.updated with
  | none =>
    have h1 : Parse1 (render g)
        = .ok { updated := statusZero.updated,
                clients := statusZero.clients ++ g.clients.map parsedClient,
                routes := statusZero.routes ++ g.routes.map parsedRoute,
                maxQueue := okD (goParseUint64 g.queue) 0 } := by
      unfold Parse1 render
      rw [hgu]
      simp only [List.nil_append]
      rw [parse1Go_cons_ok _ _ _ _ _ _ _ (by decide) (p1Step_clientsHdr statusZero _)]
      exact p1_tail g.clients g.routes g.queue hc hr hq statusZero 1
    have h2 : Parse2 (render g)
        = .ok { updated := statusZero.updated,
                clients := statusZero.clients ++ g.clients.map parsedClient,
                routes := statusZero.routes ++ g.routes.map parsedRoute,
                maxQueue := okD (goParseUint64 g.queue) 0 } := by
      unfold Parse2 render
      rw [hgu]
      simp only [List.nil_append]
      rw [parse2Go_cons_cont _ _ _ _ _ _ _ (p2Step_clientsHdr statusZero _)]
      exact p2_tail g.clients g.routes g.queue hc hr hq statusZero 1
    refine ⟨_, _, h1, h2, rfl, rfl, rfl, rfl, ?_, ?_, ?_, ?_⟩ <;> simp [statusZero]
  | some u =>
    rw [hgu] at hu
    have h1 : Parse1 (render g)
        = .ok { updated := okD (parseTimeS u) goZeroTime,
                clients := statusZero.clients ++ g.clients.map parsedClient,
                routes := statusZero.routes ++ g.routes.map parsedRoute,
                maxQueue := okD (goParseUint64 g.queue) 0 } := by
      unfold Parse1 render
      rw [hgu]
      simp only [List.singleton_append, List.cons_append]
      rw [parse1Go_cons_ok _ _ _ _ _ _ _ (by decide) (p1Step_clientsHdr statusZero _)]
      rw [parse1Go_cons_ok _ _ _ _ _ _ _ (by decide) (p1Step_updated statusZero u hu)]
      exact p1_tail g.clients g.routes g.queue hc hr hq _ 2
    have h2 : Parse2 (render g)
        = .ok { updated := okD (parseTimeS u) goZeroTime,
                clients := statusZero.clients ++ g.clients.map parsedClient,
                routes := statusZero.routes ++ g.routes.map parsedRoute,
                maxQueue := okD (goParseUint64 g.queue) 0 } := by
      unfold Parse2 render
      rw [hgu]
      simp only [List.singleton_append, List.cons_append]
      rw [parse2Go_cons_cont _ _ _ _ _ _ _ (p2Step_clientsHdr statusZero _)]
      rw [parse2Go_cons_cont _ _ _ _ _ _ _ (p2Step_updated statusZero stateClients u hu)]
      exact p2_tail g.clients g.routes g.queue hc hr hq _ 2
    refine ⟨_, _, h1, h2, rfl, rfl, rfl, rfl, ?_, ?_, ?_, ?_⟩ <;> simp [statusZero]

/-- The section-8 example as grammar content, for the witness. -/
def exampleG : GFile :=
  { updated := some "Thu Nov  5 15:34:43 2015"
    clients := [{ name := "test1", addr := "6.6.6.6:1000", recv := "100", sent := "98",
                  since := "Thu Nov  5 15:34:43 2015" }]
    routes :=
      [ { virt := "10.0.0.1", name := "test1", addr := "6.6.6.6:1000",
          lastRef := "Thu Nov  5 15:34:43 2015" }
      , { virt := "10.1.0.1C", name := "test1", addr := "6.6.6.6:1000",
          lastRef := "Thu Nov  5 15:34:43 2015" }
      , { virt := "10.3.0.1/16", name := "test1", addr := "6.6.6.6:1000",
          lastRef := "Thu Nov  5 15:34:43 2015" } ]
    queue := "39" }

theorem c1_witness :
    ∃ s1 s2 : Status,
      Parse1 (render exampleG) = .ok s1 ∧ Parse2 (render exampleG) = .ok s2
      ∧ s1.clients = exampleG.clients.map parsedClient
      ∧ s1.routes = exampleG.routes.map parsedRoute
      ∧ s2.clients = exampleG.clients.map parsedClient
      ∧ s2.routes = exampleG.routes.map parsedRoute
      ∧ s1.clients.length = exampleG.clients.length
      ∧ s1.routes.length = exampleG.routes.length
      ∧ s2.clients.length = exampleG.clients.length
      ∧ s2.routes.length = exampleG.routes.length :=
  c1_wellformed_parse exampleG (by unfold exampleG; decide)

end OpenVPN
